import Mathlib

/-!
# react-essentials-practice: the `TabButton` component and the `App` shell

A shallow embedding of `src/components/TabButtons.jsx` and `src/App.jsx`.

* JavaScript values are the inductive type `Value`; objects are ordered
  association lists from property names to values (`Obj`).
* A JSX expression denotes an element description: its type (host tag,
  component reference, or fragment) together with the props object that the
  attribute list builds, attribute by attribute, in source order.
* `console.log` is the only effect in the source; the console is threaded
  through explicitly, next to the props object the caller handed over.
-/

namespace ReactEssentials

/-- What stands in the type position of a JSX element. -/
inductive ElementType where
  | host (tag : String)
  | component (name : String)
  | fragment
  deriving DecidableEq, Repr

/-- JavaScript values that can travel through props. Numbers are carried as
integers plus a separate `nan`; functions are opaque handles. -/
inductive Value where
  | undefined
  | null
  | bool (b : Bool)
  | number (n : Int)
  | nan
  | string (s : String)
  | function (handle : Nat)
  | array (items : List Value)
  | object (fields : List (String × Value))
  | element (type : ElementType) (props : List (String × Value))

/-- A plain object: own enumerable string-keyed properties in insertion order. -/
abbrev Obj := List (String × Value)

/-- An element description, as produced by one JSX expression. -/
structure Element where
  type : ElementType
  props : Obj

/-- The console: one entry per `console.log` call, holding its arguments. -/
abbrev Console := List (List Value)

namespace Value

/-- ECMAScript `ToBoolean`, the test applied by `?:`. -/
def toBoolean : Value → Bool
  | undefined => false
  | null => false
  | bool b => b
  | number n => n != 0
  | nan => false
  | string s => s != ""
  | function _ => true
  | array _ => true
  | object _ => true
  | element _ _ => true

/-- Reads a value back as an element description, when it is one. -/
def toElement? : Value → Option Element
  | element t p => some ⟨t, p⟩
  | _ => none

end Value

/-- An element description used as a value (for instance as a child). -/
def Element.toValue (e : Element) : Value := Value.element e.type e.props

namespace Obj

/-- Own-property lookup: `none` when the key is absent. -/
def get? : Obj → String → Option Value
  | [], _ => none
  | (k', v) :: rest, k => if k' = k then some v else get? rest k

/-- Property read `o[k]`: an absent key reads as `undefined`. -/
def get (o : Obj) (k : String) : Value := (get? o k).getD Value.undefined

/-- Tests `k in o` for own properties. -/
def has (o : Obj) (k : String) : Bool := (get? o k).isSome

/-- Own property names in insertion order. -/
def keys (o : Obj) : List String := o.map Prod.fst

/-- Property definition `o[k] = v`: an existing key keeps its position, a new
key is appended. -/
def set : Obj → String → Value → Obj
  | [], k, v => [(k, v)]
  | (k', v') :: rest, k, v =>
    if k' = k then (k, v) :: rest else (k', v') :: set rest k v

/-- Copies the listed properties of `src` onto `target`, one key at a time. -/
def copyKeys (target : Obj) (src : Obj) (ks : List String) : Obj :=
  ks.foldl (fun t k => set t k (get src k)) target

/-- Object spread `{...target, ...src}` onto an object under construction:
every own property of `src` is read and defined on `target`, in order. -/
def assign (target src : Obj) : Obj := copyKeys target src (keys src)

/-- Rest destructuring `{a, b, ...rest} = src`: a fresh object receiving every
own property of `src` whose key is not among the excluded names. -/
def rest (src : Obj) (excluded : List String) : Obj :=
  copyKeys [] src ((keys src).filter (fun k => decide (k ∉ excluded)))

end Obj

/-- JSX element creation: the type and the props object written in the tag. -/
def jsx (type : ElementType) (config : Obj) : Element := ⟨type, config⟩

/-- Effect of `console.log(args...)`: one more entry at the end of the console. -/
def consoleLog (console : Console) (args : List Value) : Console := console ++ [args]

/-- Result of one component invocation: the returned element, and the state of
the props object and of the console once the call has returned. -/
structure Outcome where
  element : Element
  props : Obj
  console : Console

/-- The rest pattern `...extraProps` of the parameter
`{ children, isSelected, ...extraProps }`. -/
def extraPropsOf (props : Obj) : Obj := Obj.rest props ["children", "isSelected"]

/-- The `className` expression of the button: `isSelected ? "active" : undefined`. -/
def classNameFor (isSelected : Value) : Value :=
  if isSelected.toBoolean then Value.string "active" else Value.undefined

/-- Embedding of `TabButton({ children, isSelected, ...extraProps })`
(`src/components/TabButtons.jsx`). -/
def TabButton (props : Obj) (console : Console) : Outcome :=
  let children := Obj.get props "children"
  let isSelected := Obj.get props "isSelected"
  let extraProps := extraPropsOf props
  let console := consoleLog console [Value.string "tabButton Component executing"]
  let button := jsx (ElementType.host "button")
    (Obj.set
      (Obj.assign (Obj.set [] "className" (classNameFor isSelected)) extraProps)
      "children" children)
  { element := jsx (ElementType.host "li") (Obj.set [] "children" button.toValue)
    props := props
    console := console }

/-- The props object of the `<button>` element inside `TabButton`, named so that
lemmas can refer to it. -/
def buttonConfig (props : Obj) : Obj :=
  Obj.set
    (Obj.assign (Obj.set [] "className" (classNameFor (Obj.get props "isSelected")))
      (extraPropsOf props))
    "children" (Obj.get props "children")

/-- Embedding of `App()` (`src/App.jsx`). `Header`, `CoreConceptSection` and
`Examples` are imported components; `App` only refers to them as element types. -/
def App : Element :=
  jsx ElementType.fragment
    (Obj.set [] "children" (Value.array [
      (jsx (ElementType.component "Header") []).toValue,
      (jsx (ElementType.host "main")
        (Obj.set [] "children" (Value.array [
          (jsx (ElementType.component "CoreConceptSection") []).toValue,
          (jsx (ElementType.component "Examples") []).toValue,
          (jsx (ElementType.host "h2")
            (Obj.set [] "children" (Value.string "Time to get started!"))).toValue
        ]))).toValue
    ]))

/-- The single child of an element, when its `children` prop is one element. -/
def Element.onlyChild (e : Element) : Option Element :=
  (Obj.get e.props "children").toElement?

/-- The children of an element, when its `children` prop is an array. -/
def Element.childList (e : Element) : Option (List Value) :=
  match Obj.get e.props "children" with
  | Value.array items => some items
  | _ => none

/-- The button element that `TabButton` places inside the list item. -/
def renderedButton (props : Obj) (console : Console) : Option Element :=
  (TabButton props console).element.onlyChild


/-! ## Lemmas about objects -/

theorem Obj.get?_set_same (o : Obj) (k : String) (v : Value) :
    Obj.get? (Obj.set o k v) k = some v := by
  induction o with
  | nil => simp [Obj.set, Obj.get?]
  | cons hd tl ih =>
    obtain ⟨k', v'⟩ := hd
    by_cases h : k' = k
    · simp [Obj.set, Obj.get?, h]
    · simp [Obj.set, Obj.get?, h, ih]

theorem Obj.get?_set_other (o : Obj) (k k' : String) (v : Value) (h : k' ≠ k) :
    Obj.get? (Obj.set o k' v) k = Obj.get? o k := by
  induction o with
  | nil => simp [Obj.set, Obj.get?, h]
  | cons hd tl ih =>
    obtain ⟨k₀, v₀⟩ := hd
    by_cases h₀ : k₀ = k'
    · subst h₀
      simp [Obj.set, Obj.get?, h]
    · by_cases h₁ : k₀ = k
      · subst h₁
        simp [Obj.set, Obj.get?, h₀]
      · simp [Obj.set, Obj.get?, h₀, h₁, ih]

theorem Obj.get?_set (o : Obj) (k k' : String) (v : Value) :
    Obj.get? (Obj.set o k' v) k = if k' = k then some v else Obj.get? o k := by
  by_cases h : k' = k
  · subst h
    simp [Obj.get?_set_same]
  · simp [h, Obj.get?_set_other o k k' v h]

theorem Obj.get?_isSome_iff_mem_keys (o : Obj) (k : String) :
    (Obj.get? o k).isSome = true ↔ k ∈ Obj.keys o := by
  induction o with
  | nil => simp [Obj.get?, Obj.keys]
  | cons hd tl ih =>
    obtain ⟨k', v'⟩ := hd
    by_cases h : k' = k
    · simp [Obj.get?, Obj.keys, h]
    · have h' : ¬ k = k' := fun e => h e.symm
      simpa [Obj.get?, Obj.keys, h, h'] using ih

theorem Obj.get?_eq_none_iff (o : Obj) (k : String) :
    Obj.get? o k = none ↔ k ∉ Obj.keys o := by
  rw [← Obj.get?_isSome_iff_mem_keys]
  cases Obj.get? o k <;> simp

theorem Obj.get?_eq_some_get (o : Obj) (k : String) (h : k ∈ Obj.keys o) :
    Obj.get? o k = some (Obj.get o k) := by
  have h' := (Obj.get?_isSome_iff_mem_keys o k).mpr h
  unfold Obj.get
  cases hg : Obj.get? o k with
  | none => simp [hg] at h'
  | some v => simp

theorem Obj.get?_copyKeys (src : Obj) (ks : List String) (target : Obj) (k : String) :
    Obj.get? (Obj.copyKeys target src ks) k =
      if k ∈ ks then some (Obj.get src k) else Obj.get? target k := by
  induction ks generalizing target with
  | nil => simp [Obj.copyKeys]
  | cons k₀ ks ih =>
    have step : Obj.copyKeys target src (k₀ :: ks) =
        Obj.copyKeys (Obj.set target k₀ (Obj.get src k₀)) src ks := by
      simp [Obj.copyKeys]
    rw [step, ih]
    by_cases h : k ∈ ks
    · simp [h]
    · by_cases h₀ : k₀ = k
      · subst h₀
        simp [h, Obj.get?_set_same]
      · have h₁ : ¬ k = k₀ := fun e => h₀ e.symm
        simp [h, h₁, Obj.get?_set_other _ _ _ _ h₀]

theorem Obj.get?_assign (target src : Obj) (k : String) :
    Obj.get? (Obj.assign target src) k =
      if k ∈ Obj.keys src then some (Obj.get src k) else Obj.get? target k := by
  simp [Obj.assign, Obj.get?_copyKeys]

theorem Obj.get?_rest (src : Obj) (excluded : List String) (k : String) :
    Obj.get? (Obj.rest src excluded) k =
      if k ∈ Obj.keys src ∧ k ∉ excluded then Obj.get? src k else none := by
  unfold Obj.rest
  rw [Obj.get?_copyKeys]
  by_cases h : k ∈ Obj.keys src
  · by_cases h' : k ∈ excluded
    · simp [h, h', Obj.get?]
    · simp [h, h', Obj.get?_eq_some_get src k h]
  · simp [h, Obj.get?]

theorem Obj.mem_keys_rest (src : Obj) (excluded : List String) (k : String) :
    k ∈ Obj.keys (Obj.rest src excluded) ↔ k ∈ Obj.keys src ∧ k ∉ excluded := by
  rw [← Obj.get?_isSome_iff_mem_keys, Obj.get?_rest]
  by_cases h : k ∈ Obj.keys src ∧ k ∉ excluded
  · rw [if_pos h]
    exact ⟨fun _ => h, fun _ => (Obj.get?_isSome_iff_mem_keys src k).mpr h.1⟩
  · rw [if_neg h]
    exact ⟨fun hn => by simp at hn, fun hk => absurd hk h⟩

theorem Obj.get_rest (src : Obj) (excluded : List String) (k : String)
    (h : k ∈ Obj.keys (Obj.rest src excluded)) :
    Obj.get (Obj.rest src excluded) k = Obj.get src k := by
  have h' := (Obj.mem_keys_rest src excluded k).mp h
  unfold Obj.get
  rw [Obj.get?_rest]
  simp [h']

theorem Obj.get_of_get? (o : Obj) (k : String) (v : Value)
    (h : Obj.get? o k = some v) : Obj.get o k = v := by
  unfold Obj.get
  rw [h]
  rfl

theorem Obj.get?_append (a b : Obj) (k : String) :
    Obj.get? (a ++ b) k = if k ∈ Obj.keys a then Obj.get? a k else Obj.get? b k := by
  induction a with
  | nil => simp [Obj.keys]
  | cons hd tl ih =>
    obtain ⟨k', v'⟩ := hd
    by_cases h : k' = k
    · subst h
      simp [Obj.get?, Obj.keys]
    · have h' : ¬ k = k' := fun e => h e.symm
      have hstep : Obj.get? ((k', v') :: tl ++ b) k = Obj.get? (tl ++ b) k := by
        simp [Obj.get?, h]
      have htl : Obj.get? ((k', v') :: tl) k = Obj.get? tl k := by
        simp [Obj.get?, h]
      have hmem : k ∈ Obj.keys ((k', v') :: tl) ↔ k ∈ Obj.keys tl := by
        simp [Obj.keys, h']
      rw [hstep, ih, htl]
      by_cases hm : k ∈ Obj.keys tl
      · rw [if_pos hm, if_pos (hmem.mpr hm)]
      · rw [if_neg hm, if_neg (fun hc => hm (hmem.mp hc))]

theorem Obj.get?_insert_other (pre post : Obj) (x : String) (v : Value) (k : String)
    (h : x ≠ k) :
    Obj.get? (pre ++ (x, v) :: post) k = Obj.get? (pre ++ post) k := by
  rw [Obj.get?_append, Obj.get?_append]
  simp [Obj.get?, h]

theorem Obj.copyKeys_congr (src src' : Obj) (ks : List String) (target : Obj)
    (h : ∀ k, k ∈ ks → Obj.get src k = Obj.get src' k) :
    Obj.copyKeys target src ks = Obj.copyKeys target src' ks := by
  induction ks generalizing target with
  | nil => rfl
  | cons k₀ ks ih =>
    have e₀ : Obj.get src k₀ = Obj.get src' k₀ := h k₀ (List.mem_cons_self _ _)
    have step : ∀ s : Obj, Obj.copyKeys target s (k₀ :: ks) =
        Obj.copyKeys (Obj.set target k₀ (Obj.get s k₀)) s ks := by
      intro s
      simp [Obj.copyKeys]
    rw [step src, step src', e₀]
    exact ih _ (fun k hk => h k (List.mem_cons_of_mem _ hk))

theorem extraPropsOf_insert_isSelected (pre post : Obj) (v : Value) :
    extraPropsOf (pre ++ ("isSelected", v) :: post) = extraPropsOf (pre ++ post) := by
  unfold extraPropsOf Obj.rest
  have hk : (Obj.keys (pre ++ ("isSelected", v) :: post)).filter
        (fun k => decide (k ∉ ["children", "isSelected"])) =
      (Obj.keys (pre ++ post)).filter
        (fun k => decide (k ∉ ["children", "isSelected"])) := by
    simp [Obj.keys, List.filter_cons]
  rw [hk]
  apply Obj.copyKeys_congr
  intro k hk'
  have hne : "isSelected" ≠ k := by
    intro e
    subst e
    simp at hk'
  unfold Obj.get
  rw [Obj.get?_insert_other pre post "isSelected" v k hne]

/-! ## The shape of the output of `TabButton` -/

theorem TabButton_element (props : Obj) (console : Console) :
    (TabButton props console).element =
      ⟨ElementType.host "li",
        [("children", Value.element (ElementType.host "button") (buttonConfig props))]⟩ := by
  simp [TabButton, jsx, Obj.set, Element.toValue, buttonConfig]

theorem renderedButton_eq (props : Obj) (console : Console) :
    renderedButton props console =
      some ⟨ElementType.host "button", buttonConfig props⟩ := by
  unfold renderedButton
  rw [TabButton_element]
  simp [Element.onlyChild, Obj.get, Obj.get?, Value.toElement?]

theorem mem_keys_extraPropsOf (props : Obj) (k : String) :
    k ∈ Obj.keys (extraPropsOf props) ↔
      k ∈ Obj.keys props ∧ k ≠ "children" ∧ k ≠ "isSelected" := by
  simp [extraPropsOf, Obj.mem_keys_rest]

theorem get?_buttonConfig (props : Obj) (k : String) :
    Obj.get? (buttonConfig props) k =
      if k = "children" then some (Obj.get props "children")
      else if k ∈ Obj.keys (extraPropsOf props) then some (Obj.get (extraPropsOf props) k)
      else if k = "className" then some (classNameFor (Obj.get props "isSelected"))
      else none := by
  unfold buttonConfig
  rw [Obj.get?_set, Obj.get?_assign, Obj.get?_set]
  by_cases h₁ : k = "children"
  · simp [h₁]
  · have h₁' : ¬ "children" = k := fun e => h₁ e.symm
    by_cases h₂ : k = "className"
    · simp [h₁, h₁', h₂, Obj.get?]
    · have h₂' : ¬ "className" = k := fun e => h₂ e.symm
      simp [h₁, h₁', h₂, h₂', Obj.get?]

theorem get_extraPropsOf (props : Obj) (k : String)
    (h : k ∈ Obj.keys (extraPropsOf props)) :
    Obj.get (extraPropsOf props) k = Obj.get props k :=
  Obj.get_rest props _ k h

theorem get?_buttonConfig_congr (p q : Obj) (h : ∀ k, Obj.get? p k = Obj.get? q k)
    (k : String) :
    Obj.get? (buttonConfig p) k = Obj.get? (buttonConfig q) k := by
  have hget : ∀ k, Obj.get p k = Obj.get q k := by
    intro k
    unfold Obj.get
    rw [h k]
  have hkeys : ∀ k, k ∈ Obj.keys p ↔ k ∈ Obj.keys q := by
    intro k
    rw [← Obj.get?_isSome_iff_mem_keys, ← Obj.get?_isSome_iff_mem_keys, h k]
  have hmem : k ∈ Obj.keys (extraPropsOf p) ↔ k ∈ Obj.keys (extraPropsOf q) := by
    rw [mem_keys_extraPropsOf, mem_keys_extraPropsOf, hkeys k]
  rw [get?_buttonConfig, get?_buttonConfig, hget "children", hget "isSelected"]
  by_cases hc : k = "children"
  · rw [if_pos hc, if_pos hc]
  · rw [if_neg hc, if_neg hc]
    by_cases hm : k ∈ Obj.keys (extraPropsOf p)
    · rw [if_pos hm, if_pos (hmem.mp hm), get_extraPropsOf p k hm,
        get_extraPropsOf q k (hmem.mp hm), hget k]
    · rw [if_neg hm, if_neg (fun hq => hm (hmem.mpr hq))]

/-! ## Claims about `TabButton` -/

/-- C1 (as amended): for every boolean `isSelected`, every `children` and every
`extraProps` that has no `className` entry, the rendered button carries the
active marker (`className` equal to `"active"`) iff `isSelected` is true. -/
theorem TabButton_active_iff_selected (props : Obj) (console : Console) (sel : Bool)
    (hsel : Obj.get props "isSelected" = Value.bool sel)
    (hcls : Obj.has (extraPropsOf props) "className" = false) :
    ∃ button, renderedButton props console = some button ∧
      button.type = ElementType.host "button" ∧
      (Obj.get button.props "className" = Value.string "active" ↔ sel = true) := by
  refine ⟨_, renderedButton_eq props console, rfl, ?_⟩
  have hk : "className" ∉ Obj.keys (extraPropsOf props) := by
    rw [← Obj.get?_eq_none_iff]
    unfold Obj.has at hcls
    cases hg : Obj.get? (extraPropsOf props) "className" with
    | none => rfl
    | some v => simp [hg] at hcls
  have hget : Obj.get (buttonConfig props) "className" = classNameFor (Value.bool sel) := by
    unfold Obj.get
    rw [get?_buttonConfig, hsel]
    simp [hk]
  show Obj.get (buttonConfig props) "className" = Value.string "active" ↔ sel = true
  rw [hget]
  cases sel <;> simp [classNameFor, Value.toBoolean]

/-- C1 witness: Scenario A of the specification, `isSelected=true`,
`children="Concepts"`. -/
theorem TabButton_active_iff_selected_witness :
    ∃ button,
      renderedButton
        [("isSelected", Value.bool true), ("children", Value.string "Concepts")] [] =
        some button ∧
      button.type = ElementType.host "button" ∧
      (Obj.get button.props "className" = Value.string "active" ↔ true = true) :=
  TabButton_active_iff_selected
    [("isSelected", Value.bool true), ("children", Value.string "Concepts")] [] true
    (by simp [Obj.get, Obj.get?]) (by decide)

/-- C1 counterexample: with `isSelected=true` and `extraProps={className: "highlight"}`
the rendered button's `className` is `"highlight"`, so a selected tab carries no
active marker. -/
theorem TabButton_active_iff_selected_counterexample :
    ∃ button,
      renderedButton
        [("isSelected", Value.bool true), ("className", Value.string "highlight"),
          ("children", Value.string "Concepts")] [] = some button ∧
      Obj.get button.props "className" = Value.string "highlight" ∧
      ¬ (Obj.get button.props "className" = Value.string "active" ↔ true = true) := by
  refine ⟨_, renderedButton_eq _ _, ?_, ?_⟩
  · simp [Obj.get, get?_buttonConfig, extraPropsOf, Obj.rest, Obj.keys, Obj.copyKeys,
      Obj.set, Obj.get?]
  · simp [Obj.get, get?_buttonConfig, extraPropsOf, Obj.rest, Obj.keys, Obj.copyKeys,
      Obj.set, Obj.get?]

/-- C2: `TabButton` returns one `li` element whose props hold exactly one entry,
`children`, which is one `button` element; the button's `children` attribute is
the `children` value of the props, unchanged, and reads `undefined` (an empty
label) when the props have no `children`. -/
theorem TabButton_li_button_children (props : Obj) (console : Console) :
    (TabButton props console).element.type = ElementType.host "li" ∧
    ∃ button : Element,
      (TabButton props console).element.props = [("children", button.toValue)] ∧
      (TabButton props console).element.onlyChild = some button ∧
      button.type = ElementType.host "button" ∧
      Obj.get button.props "children" = Obj.get props "children" ∧
      Obj.get? button.props "children" =
        some ((Obj.get? props "children").getD Value.undefined) := by
  rw [TabButton_element]
  refine ⟨rfl, ⟨ElementType.host "button", buttonConfig props⟩, rfl, ?_, rfl, ?_, ?_⟩
  · simp [Element.onlyChild, Obj.get, Obj.get?, Value.toElement?]
  · simp [Obj.get, get?_buttonConfig]
  · simp [Obj.get, get?_buttonConfig]

/-- C3: every entry of `extraProps` is an attribute of the rendered button with
exactly the value it has in `extraProps` (which is the value the caller put in
the props), whatever `isSelected` and `children` are. This holds for every key
of `extraProps`, hence for every key that is not `className`, `children` or
`isSelected`. -/
theorem TabButton_forwards_extraProps (props : Obj) (console : Console) (k : String)
    (hk : k ∈ Obj.keys (extraPropsOf props)) :
    ∃ button, renderedButton props console = some button ∧
      Obj.get? button.props k = some (Obj.get (extraPropsOf props) k) ∧
      Obj.get (extraPropsOf props) k = Obj.get props k := by
  refine ⟨_, renderedButton_eq props console, ?_, get_extraPropsOf props k hk⟩
  have hc : k ≠ "children" := ((mem_keys_extraPropsOf props k).mp hk).2.1
  show Obj.get? (buttonConfig props) k = _
  rw [get?_buttonConfig]
  simp [hc, hk]

/-- C3 witness: Scenario C of the specification, an activation handler passed
without `isSelected`. -/
theorem TabButton_forwards_extraProps_witness :
    ∃ button,
      renderedButton
        [("onActivate", Value.function 7), ("children", Value.string "Examples")] [] =
        some button ∧
      Obj.get? button.props "onActivate" =
        some (Obj.get
          (extraPropsOf
            [("onActivate", Value.function 7), ("children", Value.string "Examples")])
          "onActivate") ∧
      Obj.get
          (extraPropsOf
            [("onActivate", Value.function 7), ("children", Value.string "Examples")])
          "onActivate" =
        Obj.get [("onActivate", Value.function 7), ("children", Value.string "Examples")]
          "onActivate" :=
  TabButton_forwards_extraProps
    [("onActivate", Value.function 7), ("children", Value.string "Examples")] []
    "onActivate" (by decide)

/-- C4: the attributes of the rendered button are exactly `className`, `children`
and the keys of `extraProps`; the keys of `extraProps` are exactly the keys of the
props other than `children` and `isSelected`; every forwarded entry keeps the
value the caller gave it; and `isSelected` is not an attribute of the button. -/
theorem TabButton_attribute_set (props : Obj) (console : Console) :
    ∃ button, renderedButton props console = some button ∧
      (∀ k, k ∈ Obj.keys button.props ↔
        k = "className" ∨ k = "children" ∨ k ∈ Obj.keys (extraPropsOf props)) ∧
      (∀ k, k ∈ Obj.keys (extraPropsOf props) ↔
        k ∈ Obj.keys props ∧ k ≠ "children" ∧ k ≠ "isSelected") ∧
      (∀ k, k ∈ Obj.keys (extraPropsOf props) →
        Obj.get? button.props k = Obj.get? props k) ∧
      "isSelected" ∉ Obj.keys button.props := by
  have hkeys : ∀ k, k ∈ Obj.keys (buttonConfig props) ↔
      k = "className" ∨ k = "children" ∨ k ∈ Obj.keys (extraPropsOf props) := by
    intro k
    rw [← Obj.get?_isSome_iff_mem_keys, get?_buttonConfig]
    by_cases h₁ : k = "children"
    · simp [h₁]
    · by_cases h₂ : k ∈ Obj.keys (extraPropsOf props)
      · simp [h₁, h₂]
      · by_cases h₃ : k = "className"
        · subst h₃
          simp [h₂]
        · simp [h₁, h₂, h₃]
  refine ⟨_, renderedButton_eq props console, hkeys, mem_keys_extraPropsOf props, ?_, ?_⟩
  · intro k hk
    have hk' := (mem_keys_extraPropsOf props k).mp hk
    show Obj.get? (buttonConfig props) k = _
    rw [get?_buttonConfig, get_extraPropsOf props k hk,
      Obj.get?_eq_some_get props k hk'.1]
    simp [hk'.2.1, hk]
  · show "isSelected" ∉ Obj.keys (buttonConfig props)
    rw [hkeys]
    simp [mem_keys_extraPropsOf]

/-- C5 (as amended): when the props have no `isSelected`, `TabButton` returns the
same element and leaves the same console as when `isSelected: false` is added to
the props (at any position); every `extraProps` entry is attached to the button,
and the button's `className` is unset when `extraProps` supplies none. -/
theorem TabButton_isSelected_omitted (pre post : Obj) (console : Console)
    (habs : "isSelected" ∉ Obj.keys (pre ++ post)) :
    (TabButton (pre ++ post) console).element =
      (TabButton (pre ++ ("isSelected", Value.bool false) :: post) console).element ∧
    (TabButton (pre ++ post) console).console =
      (TabButton (pre ++ ("isSelected", Value.bool false) :: post) console).console ∧
    ∃ button, renderedButton (pre ++ post) console = some button ∧
      (∀ k, k ∈ Obj.keys (extraPropsOf (pre ++ post)) →
        Obj.get? button.props k = some (Obj.get (extraPropsOf (pre ++ post)) k)) ∧
      (Obj.has (extraPropsOf (pre ++ post)) "className" = false →
        Obj.get button.props "className" = Value.undefined) := by
  have hnone : Obj.get? (pre ++ post) "isSelected" = none :=
    (Obj.get?_eq_none_iff _ _).mpr habs
  have hpre : "isSelected" ∉ Obj.keys pre := by
    intro h
    apply habs
    simp only [Obj.keys, List.map_append, List.mem_append] at h ⊢
    exact Or.inl h
  have hfalse : Obj.get? (pre ++ ("isSelected", Value.bool false) :: post) "isSelected" =
      some (Value.bool false) := by
    rw [Obj.get?_append]
    simp [hpre, Obj.get?]
  have hcfg : buttonConfig (pre ++ post) =
      buttonConfig (pre ++ ("isSelected", Value.bool false) :: post) := by
    unfold buttonConfig
    rw [extraPropsOf_insert_isSelected]
    have hch : Obj.get (pre ++ ("isSelected", Value.bool false) :: post) "children" =
        Obj.get (pre ++ post) "children" := by
      unfold Obj.get
      rw [Obj.get?_insert_other pre post "isSelected" _ "children" (by decide)]
    rw [hch]
    unfold Obj.get
    rw [hnone, hfalse]
    rfl
  refine ⟨?_, rfl, _, renderedButton_eq _ _, ?_, ?_⟩
  · rw [TabButton_element, TabButton_element, hcfg]
  · intro k hk
    have hc : k ≠ "children" := ((mem_keys_extraPropsOf _ k).mp hk).2.1
    show Obj.get? (buttonConfig (pre ++ post)) k = _
    rw [get?_buttonConfig]
    simp [hc, hk]
  · intro hcls
    have hk : "className" ∉ Obj.keys (extraPropsOf (pre ++ post)) := by
      rw [← Obj.get?_eq_none_iff]
      unfold Obj.has at hcls
      cases hg : Obj.get? (extraPropsOf (pre ++ post)) "className" with
      | none => rfl
      | some v => simp [hg] at hcls
    show Obj.get (buttonConfig (pre ++ post)) "className" = Value.undefined
    unfold Obj.get
    rw [get?_buttonConfig]
    simp [hk, Obj.get, hnone, classNameFor, Value.toBoolean]

/-- C5 witness: Scenario C of the specification, with `isSelected: false` placed
between the handler and the label. -/
theorem TabButton_isSelected_omitted_witness :
    (TabButton ([("onActivate", Value.function 7)] ++ [("children", Value.string "Examples")])
        []).element =
      (TabButton ([("onActivate", Value.function 7)] ++
        ("isSelected", Value.bool false) :: [("children", Value.string "Examples")])
        []).element ∧
    (TabButton ([("onActivate", Value.function 7)] ++ [("children", Value.string "Examples")])
        []).console =
      (TabButton ([("onActivate", Value.function 7)] ++
        ("isSelected", Value.bool false) :: [("children", Value.string "Examples")])
        []).console ∧
    ∃ button,
      renderedButton
        ([("onActivate", Value.function 7)] ++ [("children", Value.string "Examples")]) [] =
        some button ∧
      (∀ k, k ∈ Obj.keys (extraPropsOf
          ([("onActivate", Value.function 7)] ++ [("children", Value.string "Examples")])) →
        Obj.get? button.props k = some (Obj.get (extraPropsOf
          ([("onActivate", Value.function 7)] ++ [("children", Value.string "Examples")])) k)) ∧
      (Obj.has (extraPropsOf
          ([("onActivate", Value.function 7)] ++ [("children", Value.string "Examples")]))
          "className" = false →
        Obj.get button.props "className" = Value.undefined) :=
  TabButton_isSelected_omitted [("onActivate", Value.function 7)]
    [("children", Value.string "Examples")] [] (by decide)

/-- C5 counterexample: with `isSelected` omitted and
`extraProps={className: "active", onActivate: fn}` the rendered button carries the
active marker. -/
theorem TabButton_isSelected_omitted_counterexample :
    Obj.has [("className", Value.string "active"), ("onActivate", Value.function 7)]
        "isSelected" = false ∧
    ∃ button,
      renderedButton
        [("className", Value.string "active"), ("onActivate", Value.function 7)] [] =
        some button ∧
      Obj.get button.props "className" = Value.string "active" := by
  refine ⟨by decide, _, renderedButton_eq _ _, ?_⟩
  simp [Obj.get, get?_buttonConfig, extraPropsOf, Obj.rest, Obj.keys, Obj.copyKeys,
    Obj.set, Obj.get?]

/-- C6: when `isSelected` is `false` or absent and `extraProps` has no `className`,
the button's `className` attribute holds `undefined`: it is no string at all, in
particular neither `""` nor `"undefined"`. -/
theorem TabButton_className_unset (props : Obj) (console : Console)
    (hsel : Obj.get? props "isSelected" = none ∨
      Obj.get? props "isSelected" = some (Value.bool false))
    (hcls : Obj.has (extraPropsOf props) "className" = false) :
    ∃ button, renderedButton props console = some button ∧
      Obj.get? button.props "className" = some Value.undefined ∧
      Obj.get button.props "className" = Value.undefined ∧
      ∀ s : String, Obj.get button.props "className" ≠ Value.string s := by
  have hk : "className" ∉ Obj.keys (extraPropsOf props) := by
    rw [← Obj.get?_eq_none_iff]
    unfold Obj.has at hcls
    cases hg : Obj.get? (extraPropsOf props) "className" with
    | none => rfl
    | some v => simp [hg] at hcls
  have hc : classNameFor (Obj.get props "isSelected") = Value.undefined := by
    unfold Obj.get
    rcases hsel with h | h <;> rw [h] <;> rfl
  have hget? : Obj.get? (buttonConfig props) "className" = some Value.undefined := by
    rw [get?_buttonConfig, hc]
    simp [hk]
  have hget : Obj.get (buttonConfig props) "className" = Value.undefined := by
    unfold Obj.get
    rw [hget?]
    rfl
  refine ⟨_, renderedButton_eq props console, hget?, hget, ?_⟩
  intro s
  show Obj.get (buttonConfig props) "className" ≠ Value.string s
  rw [hget]
  exact fun h => Value.noConfusion h

/-- C6 witness: Scenario B of the specification, `isSelected=false`,
`children="Examples"`. -/
theorem TabButton_className_unset_witness :
    ∃ button,
      renderedButton
        [("isSelected", Value.bool false), ("children", Value.string "Examples")] [] =
        some button ∧
      Obj.get? button.props "className" = some Value.undefined ∧
      Obj.get button.props "className" = Value.undefined ∧
      ∀ s : String, Obj.get button.props "className" ≠ Value.string s :=
  TabButton_className_unset
    [("isSelected", Value.bool false), ("children", Value.string "Examples")] []
    (Or.inr (by simp [Obj.get?])) (by decide)

/-- C10: the button's final `className` is `extraProps.className` whenever
`extraProps` has a `className` key, whatever `isSelected` is; otherwise it is
`"active"` when `isSelected` is truthy and `undefined` when it is not. -/
theorem TabButton_className_override (props : Obj) (console : Console) :
    ∃ button, renderedButton props console = some button ∧
      Obj.get button.props "className" =
        if Obj.has (extraPropsOf props) "className" = true then
          Obj.get (extraPropsOf props) "className"
        else if (Obj.get props "isSelected").toBoolean = true then Value.string "active"
        else Value.undefined := by
  refine ⟨_, renderedButton_eq props console, ?_⟩
  show Obj.get (buttonConfig props) "className" = _
  have hiff : Obj.has (extraPropsOf props) "className" = true ↔
      "className" ∈ Obj.keys (extraPropsOf props) :=
    Obj.get?_isSome_iff_mem_keys _ _
  by_cases hk : "className" ∈ Obj.keys (extraPropsOf props)
  · rw [if_pos (hiff.mpr hk)]
    apply Obj.get_of_get?
    rw [get?_buttonConfig]
    simp [hk]
  · rw [if_neg (fun h => hk (hiff.mp h))]
    have hg : Obj.get (buttonConfig props) "className" =
        classNameFor (Obj.get props "isSelected") := by
      apply Obj.get_of_get?
      rw [get?_buttonConfig]
      simp [hk]
    rw [hg]
    rfl

/-- C7: `TabButton` is deterministic. Invoked on the same props it returns the
same element whatever the console holds, and a second invocation right after the
first returns the same element again; invoked on two props objects that agree
field by field it returns list items of the same shape whose buttons have the
same type and agree on every attribute. -/
theorem TabButton_deterministic (p q : Obj) (c₁ c₂ : Console)
    (hpq : ∀ k, Obj.get? p k = Obj.get? q k) :
    (TabButton p c₁).element = (TabButton p c₂).element ∧
    (TabButton (TabButton p c₁).props (TabButton p c₁).console).element =
      (TabButton p c₁).element ∧
    (TabButton p c₁).element.type = (TabButton q c₂).element.type ∧
    Obj.keys (TabButton p c₁).element.props = Obj.keys (TabButton q c₂).element.props ∧
    ∃ bp bq, renderedButton p c₁ = some bp ∧ renderedButton q c₂ = some bq ∧
      bp.type = bq.type ∧ ∀ k, Obj.get? bp.props k = Obj.get? bq.props k := by
  refine ⟨?_, ?_, ?_, ?_, _, _, renderedButton_eq p c₁, renderedButton_eq q c₂, rfl,
    get?_buttonConfig_congr p q hpq⟩
  · rw [TabButton_element, TabButton_element]
  · rw [TabButton_element, TabButton_element]
    rfl
  · rw [TabButton_element, TabButton_element]
  · rw [TabButton_element, TabButton_element]
    rfl

/-- C7 witness: the same two props written in either order. -/
theorem TabButton_deterministic_witness :
    (TabButton [("isSelected", Value.bool true), ("children", Value.string "Concepts")]
        []).element =
      (TabButton [("isSelected", Value.bool true), ("children", Value.string "Concepts")]
        [[Value.string "earlier line"]]).element ∧
    (TabButton
        (TabButton [("isSelected", Value.bool true), ("children", Value.string "Concepts")]
          []).props
        (TabButton [("isSelected", Value.bool true), ("children", Value.string "Concepts")]
          []).console).element =
      (TabButton [("isSelected", Value.bool true), ("children", Value.string "Concepts")]
        []).element ∧
    (TabButton [("isSelected", Value.bool true), ("children", Value.string "Concepts")]
        []).element.type =
      (TabButton [("children", Value.string "Concepts"), ("isSelected", Value.bool true)]
        [[Value.string "earlier line"]]).element.type ∧
    Obj.keys (TabButton
        [("isSelected", Value.bool true), ("children", Value.string "Concepts")]
        []).element.props =
      Obj.keys (TabButton
        [("children", Value.string "Concepts"), ("isSelected", Value.bool true)]
        [[Value.string "earlier line"]]).element.props ∧
    ∃ bp bq,
      renderedButton
        [("isSelected", Value.bool true), ("children", Value.string "Concepts")] [] =
        some bp ∧
      renderedButton
        [("children", Value.string "Concepts"), ("isSelected", Value.bool true)]
        [[Value.string "earlier line"]] = some bq ∧
      bp.type = bq.type ∧ ∀ k, Obj.get? bp.props k = Obj.get? bq.props k :=
  TabButton_deterministic
    [("isSelected", Value.bool true), ("children", Value.string "Concepts")]
    [("children", Value.string "Concepts"), ("isSelected", Value.bool true)]
    [] [[Value.string "earlier line"]]
    (by
      intro k
      by_cases h₁ : "isSelected" = k
      · subst h₁
        simp [Obj.get?]
      · by_cases h₂ : "children" = k
        · subst h₂
          simp [Obj.get?]
        · simp [Obj.get?, h₁, h₂])

/-- C8 (as amended): an invocation of `TabButton` has exactly one effect besides
returning its element: it appends the one entry `"tabButton Component executing"`
to the console. It leaves every earlier console entry and the props object as
they were, and the element it returns does not depend on the console. -/
theorem TabButton_effects (props : Obj) (console : Console) :
    (TabButton props console).console =
      console ++ [[Value.string "tabButton Component executing"]] ∧
    (TabButton props console).props = props ∧
    ∀ console₂ : Console,
      (TabButton props console₂).element = (TabButton props console).element := by
  refine ⟨rfl, rfl, ?_⟩
  intro console₂
  rw [TabButton_element, TabButton_element]

/-- C8 counterexample: invoked on empty props with an empty console, `TabButton`
leaves a console that is no longer empty: it holds the logged line. -/
theorem TabButton_effects_counterexample :
    (TabButton [] []).console = [[Value.string "tabButton Component executing"]] ∧
    (TabButton [] []).console ≠ [] :=
  ⟨rfl, fun h => List.noConfusion h⟩

/-! ## Claims about `App` -/

/-- C9: `App` is a constant: a fragment whose children are, in order, a `Header`
element without props and one `main` element; the children of `main` are, in
order, `CoreConceptSection`, `Examples` (both without props) and an `h2` whose
only content is the text "Time to get started!". -/
theorem App_composition :
    App.type = ElementType.fragment ∧
    Obj.keys App.props = ["children"] ∧
    ∃ main h2 : Element,
      App.childList =
        some [(jsx (ElementType.component "Header") []).toValue, main.toValue] ∧
      main.type = ElementType.host "main" ∧
      Obj.keys main.props = ["children"] ∧
      main.childList =
        some [(jsx (ElementType.component "CoreConceptSection") []).toValue,
          (jsx (ElementType.component "Examples") []).toValue, h2.toValue] ∧
      h2.type = ElementType.host "h2" ∧
      h2.props = [("children", Value.string "Time to get started!")] :=
  ⟨rfl, rfl,
    ⟨ElementType.host "main",
      [("children", Value.array [
        (jsx (ElementType.component "CoreConceptSection") []).toValue,
        (jsx (ElementType.component "Examples") []).toValue,
        (jsx (ElementType.host "h2")
          [("children", Value.string "Time to get started!")]).toValue])]⟩,
    ⟨ElementType.host "h2", [("children", Value.string "Time to get started!")]⟩,
    rfl, rfl, rfl, rfl, rfl, rfl⟩

end ReactEssentials
